import Mathlib

/-!
# Verification of the registry-based pricing dispatcher

Shallow embedding of the repository's two adapter modules
(`pricer_adapter.py` and `price_adapter.py`).  Trade kinds are identified
by string tokens; a trade carries its method-resolution-order (MRO) chain
explicitly, concrete kind first.  Python numbers are modelled by `PyNum`
(ints as `Int`, floats as exact rationals); fallible code returns
`Except Err`.  Dates follow CPython's proleptic-Gregorian `toordinal`.
-/

/-- A Python string-keyed dict, modelled as an association list
(first binding for a key wins on lookup, `dictSet` updates in place). -/
def Dict (α : Type) : Type := List (String × α)

/-- `d.get(k)` / `d[k]` lookup: first binding for `k`. -/
def dictGet? {α : Type} (d : Dict α) (k : String) : Option α :=
  match d with
  | [] => none
  | (k', v) :: rest => if k = k' then some v else dictGet? rest k

/-- `d[k] = v`: update the existing binding in place, else append. -/
def dictSet {α : Type} (d : Dict α) (k : String) (v : α) : Dict α :=
  match d with
  | [] => [(k, v)]
  | (k', v') :: rest =>
      if k = k' then (k', v) :: rest else (k', v') :: dictSet rest k v

/-- `d.get(k, default)`. -/
def dictGetD {α : Type} (d : Dict α) (k : String) (v : α) : α :=
  (dictGet? d k).getD v

/-- A proleptic Gregorian calendar date (`datetime.date`). -/
structure Date where
  year : ℕ
  month : ℕ
  day : ℕ
deriving DecidableEq, Repr

/-- Gregorian leap-year test, as in CPython's `datetime._is_leap`. -/
def isLeap (y : ℕ) : Bool := y % 4 == 0 && (y % 100 != 0 || y % 400 == 0)

/-- Days in a month, as in CPython's `datetime._days_in_month`. -/
def daysInMonth (y m : ℕ) : ℕ :=
  if m = 2 then (if isLeap y then 29 else 28)
  else if m = 4 ∨ m = 6 ∨ m = 9 ∨ m = 11 then 30
  else 31

/-- Days in the year before the first of month `m`
(CPython's `datetime._days_before_month`). -/
def daysBeforeMonth (y m : ℕ) : ℕ :=
  ((List.range (m - 1)).map (fun i => daysInMonth y (i + 1))).sum

/-- Days before January 1 of year `y`, counting from year 1
(CPython's `datetime._days_before_year`). -/
def daysBeforeYear (y : ℕ) : ℕ :=
  let n := y - 1
  n * 365 + n / 4 - n / 100 + n / 400

/-- `date.toordinal()`: day number with 0001-01-01 as day 1. -/
def Date.toordinal (d : Date) : ℕ :=
  daysBeforeYear d.year + daysBeforeMonth d.year d.month + d.day

/-- `(b - a).days` for two dates. -/
def daysBetween (a b : Date) : ℤ :=
  (b.toordinal : ℤ) - (a.toordinal : ℤ)

/-- A Python numeric value as returned by handlers and backends:
an `int` or a `float` (floats modelled as exact rationals). -/
inductive PyNum where
  | int (i : ℤ)
  | float (q : ℚ)
deriving DecidableEq, Repr

/-- The `float(x)` coercion applied by `PricerAdapter.price` to a
handler's numeric result. -/
def pyFloat : PyNum → PyNum
  | .int i => .float (i : ℚ)
  | .float q => .float q

/-- Numeric value of a `PyNum` (what `float(x)` evaluates to). -/
def PyNum.toRat : PyNum → ℚ
  | .int i => (i : ℚ)
  | .float q => q

/-- Python exceptions that the adapter code can raise.
`UnsupportedTradeKind` is `UnsupportedTradeError(msg)`,
`KeyNotFound` is `KeyError(key)` from a failed dict subscript, and
`AttributeErr` models the `AttributeError` a handler would raise on a
payload of the wrong shape (never reached under correct registration). -/
inductive Err where
  | UnsupportedTradeKind (msg : String)
  | KeyNotFound (key : String)
  | AttributeErr
deriving DecidableEq, Repr

/-- Python exception classes relevant to this repository, for
`isinstance` / `except`-clause semantics. -/
inductive ExcClass where
  | baseException
  | exception
  | typeError
  | lookupError
  | keyError
  | attributeError
  | unsupportedTradeError
deriving DecidableEq, Repr

/-- Declared base class of each exception class.  The only declaration in
the repository is `class UnsupportedTradeError(TypeError)`; the rest is
the fixed CPython builtin hierarchy. -/
def pyBase : ExcClass → Option ExcClass
  | .baseException => none
  | .exception => some .baseException
  | .typeError => some .exception
  | .lookupError => some .exception
  | .keyError => some .lookupError
  | .attributeError => some .exception
  | .unsupportedTradeError => some .typeError

/-- Walk base-class links with fuel (the hierarchy has depth ≤ 4). -/
def isSubclassAux : ℕ → ExcClass → ExcClass → Bool
  | 0, _, _ => false
  | fuel + 1, c, target =>
      c == target ||
        (match pyBase c with
         | none => false
         | some b => isSubclassAux fuel b target)

/-- `issubclass(c, target)` over the declared hierarchy. -/
def isSubclass (c target : ExcClass) : Bool := isSubclassAux 8 c target

/-- The class of the exception each `Err` value represents. -/
def Err.excClass : Err → ExcClass
  | .UnsupportedTradeKind _ => .unsupportedTradeError
  | .KeyNotFound _ => .keyError
  | .AttributeErr => .attributeError

/-- Whether `except C:` catches exception `e` (`isinstance(e, C)`). -/
def catches (c : ExcClass) (e : Err) : Bool := isSubclass e.excClass c

/-- Kind-specific payload of a trade: the three dataclasses of the
repository, or an opaque payload for any other class. -/
inductive TradePayload where
  | irs (notional fixed_rate : ℚ) (start end_ : Date) (curve_id : String)
  | swaption (trade_dict : Dict ℚ)
  | capfloor (cap : Dict ℚ) (curve_id vol_surface_id : String)
      (kwargs : Dict ℚ)
  | opaquePayload

/-- A trade value: its MRO chain of kind tokens (concrete kind first,
then each ancestor, most specific to least specific, as produced by
`type(trade).__mro__`) and its payload. -/
structure Trade where
  mro : List String
  payload : TradePayload

/-- `type(trade).__name__`: the concrete kind, head of the MRO. -/
def Trade.kindName (t : Trade) : String := t.mro.headD ""

/-- `MarketState`: curves, generic market data and vol surfaces, each a
string-keyed mapping, values opaque to the adapter. -/
structure MarketState where
  curves : Dict (Dict ℚ)
  market_data : Dict ℚ
  vol_surfaces : Dict (Dict ℚ)

namespace pricer_adapter

/-- `price_swap` of `pricer_adapter.py`: toy PV
`notional * (fixed_rate - par_rate) * max(days/365, 0)` with
`par_rate = curve.get("par_rate", fixed_rate)`. -/
def price_swap (notional fixed_rate : ℚ) (start end_ : Date)
    (curve : Dict ℚ) : PyNum :=
  let year_fraction : ℚ := max ((daysBetween start end_ : ℚ) / 365) 0
  let par_rate : ℚ := dictGetD curve "par_rate" fixed_rate
  .float (notional * (fixed_rate - par_rate) * year_fraction)

/-- `swaption_pv` of `pricer_adapter.py`:
`notional * annuity * implied_vol` with defaults 0, 1, 0. -/
def swaption_pv (trade_dict : Dict ℚ) (market_data : Dict ℚ) : PyNum :=
  let notional := dictGetD trade_dict "notional" 0
  let annuity := dictGetD trade_dict "annuity" 1
  let implied_vol := dictGetD market_data "implied_vol" 0
  .float (notional * annuity * implied_vol)

/-- An object exposing `price(cap, curve, vol_surface, **kwargs)`. -/
structure CapFloorPricer where
  price : Dict ℚ → Dict ℚ → Dict ℚ → Dict ℚ → PyNum

/-- The default `CapFloorPricer` of `pricer_adapter.py`:
`max(forward - strike, 0) * notional * atm_vol * scale`. -/
def defaultCapFloorPricer : CapFloorPricer where
  price := fun cap curve vol_surface kwargs =>
    let notional := dictGetD cap "notional" 1
    let strike := dictGetD cap "strike" 0
    let forward := dictGetD curve "forward" strike
    let atm_vol := dictGetD vol_surface "atm_vol" 0
    let scale := dictGetD kwargs "scale" 1
    let intrinsic := max (forward - strike) 0
    .float (intrinsic * notional * atm_vol * scale)

/-- An adapter instance: the three injected backends set by
`PricerAdapter.__init__`. -/
structure PricerAdapter where
  swap_pricer : ℚ → ℚ → Date → Date → Dict ℚ → PyNum
  swaption_pricer : Dict ℚ → Dict ℚ → PyNum
  capfloor_pricer : CapFloorPricer

/-- `PricerAdapter.__init__`: the cap/floor backend defaults to a fresh
`CapFloorPricer()` when `None` is passed. -/
def PricerAdapter.init
    (swap_pricer : ℚ → ℚ → Date → Date → Dict ℚ → PyNum)
    (swaption_pricer : Dict ℚ → Dict ℚ → PyNum)
    (capfloor_pricer : Option CapFloorPricer) : PricerAdapter where
  swap_pricer := swap_pricer
  swaption_pricer := swaption_pricer
  capfloor_pricer := capfloor_pricer.getD defaultCapFloorPricer

/-- `PricerAdapter()` with all backends defaulted. -/
def defaultAdapter : PricerAdapter :=
  PricerAdapter.init price_swap swaption_pv none

/-- A registered pricing handler `(adapter, trade, market_state) -> num`. -/
def Handler : Type := PricerAdapter → Trade → MarketState → Except Err PyNum

/-- The class-level registry mapping trade-kind tokens to handlers. -/
def Registry : Type := Dict Handler

/-- `PricerAdapter.register(trade_type)(func)`: stores `func` in the
registry and returns `func` unchanged. -/
def register (reg : Registry) (trade_type : String) (func : Handler) :
    Registry × Handler :=
  (dictSet reg trade_type func, func)

/-- `PricerAdapter._resolve_handler`: walk the MRO, returning the first
registered handler, else `None`. -/
def _resolve_handler (reg : Registry) : List String → Option Handler
  | [] => none
  | base :: rest =>
      match dictGet? reg base with
      | some handler => some handler
      | none => _resolve_handler reg rest

/-- `PricerAdapter.price`: resolve a handler for `type(trade)`; raise
`UnsupportedTradeError` naming the concrete kind if none; otherwise
return `float(handler(self, trade, market_state))`. -/
def price (reg : Registry) (adapter : PricerAdapter) (trade : Trade)
    (market_state : MarketState) : Except Err PyNum :=
  match _resolve_handler reg trade.mro with
  | none =>
      .error (.UnsupportedTradeKind ("Unsupported trade type: " ++ trade.kindName))
  | some handler => (handler adapter trade market_state).map pyFloat

/-- `_price_irs`: look up the curve by `trade.curve_id` (a failed
subscript raises `KeyError`), then call the swap backend with the five
positional values. -/
def _price_irs : Handler := fun adapter trade market_state =>
  match trade.payload with
  | .irs notional fixed_rate start end_ curve_id =>
      match dictGet? market_state.curves curve_id with
      | none => .error (.KeyNotFound curve_id)
      | some curve =>
          .ok (adapter.swap_pricer notional fixed_rate start end_ curve)
  | _ => .error .AttributeErr

/-- `_price_swaption`: pass the trade dict and `market_state.market_data`
wholesale to the swaption backend. -/
def _price_swaption : Handler := fun adapter trade market_state =>
  match trade.payload with
  | .swaption trade_dict =>
      .ok (adapter.swaption_pricer trade_dict market_state.market_data)
  | _ => .error .AttributeErr

/-- `_price_capfloor`: look up curve and vol surface (failed subscripts
raise `KeyError`), then call the cap/floor backend with the payload and
the expanded keyword options. -/
def _price_capfloor : Handler := fun adapter trade market_state =>
  match trade.payload with
  | .capfloor cap curve_id vol_surface_id kwargs =>
      match dictGet? market_state.curves curve_id with
      | none => .error (.KeyNotFound curve_id)
      | some curve =>
          match dictGet? market_state.vol_surfaces vol_surface_id with
          | none => .error (.KeyNotFound vol_surface_id)
          | some vol_surface =>
              .ok (adapter.capfloor_pricer.price cap curve vol_surface kwargs)
  | _ => .error .AttributeErr

/-- The registry after the module's three built-in registrations. -/
def default_registry : Registry :=
  (register
    (register
      (register [] "IRSTrade" _price_irs).1
      "SwaptionTrade" _price_swaption).1
    "CapFloorTrade" _price_capfloor).1

end pricer_adapter

namespace price_adapter

/-- `price_swap` of `price_adapter.py`: a constant stub. -/
def price_swap (notional fixed_rate : ℚ) (start end_ : Date)
    (curve : Dict ℚ) : PyNum :=
  .float 100

/-- `swaption_pv` of `price_adapter.py`: a constant stub. -/
def swaption_pv (trade_dict : Dict ℚ) (market_data : Dict ℚ) : PyNum :=
  .float 200

/-- The default `CapFloorPricer` of `price_adapter.py`: its `price`
method is a constant stub. -/
def defaultCapFloorPricer : pricer_adapter.CapFloorPricer where
  price := fun cap curve vol_surface kwargs => .float 300

/-- `PricerAdapter.__init__` of `price_adapter.py` (same shape as the
other module, different defaults). -/
def PricerAdapter.init
    (swap_pricer : ℚ → ℚ → Date → Date → Dict ℚ → PyNum)
    (swaption_pricer : Dict ℚ → Dict ℚ → PyNum)
    (capfloor_pricer : Option pricer_adapter.CapFloorPricer) :
    pricer_adapter.PricerAdapter where
  swap_pricer := swap_pricer
  swaption_pricer := swaption_pricer
  capfloor_pricer := capfloor_pricer.getD defaultCapFloorPricer

/-- `PricerAdapter()` of `price_adapter.py` with all backends defaulted. -/
def defaultAdapter : pricer_adapter.PricerAdapter :=
  PricerAdapter.init price_swap swaption_pv none

/-- `PricerAdapter.register` of `price_adapter.py`. -/
def register (reg : pricer_adapter.Registry) (trade_type : String)
    (func : pricer_adapter.Handler) :
    pricer_adapter.Registry × pricer_adapter.Handler :=
  (dictSet reg trade_type func, func)

/-- `PricerAdapter._resolve_handler` of `price_adapter.py`. -/
def _resolve_handler (reg : pricer_adapter.Registry) :
    List String → Option pricer_adapter.Handler
  | [] => none
  | base :: rest =>
      match dictGet? reg base with
      | some handler => some handler
      | none => _resolve_handler reg rest

/-- `PricerAdapter.price` of `price_adapter.py`. -/
def price (reg : pricer_adapter.Registry)
    (adapter : pricer_adapter.PricerAdapter) (trade : Trade)
    (market_state : MarketState) : Except Err PyNum :=
  match _resolve_handler reg trade.mro with
  | none =>
      .error (.UnsupportedTradeKind ("Unsupported trade type: " ++ trade.kindName))
  | some handler => (handler adapter trade market_state).map pyFloat

end price_adapter

namespace pricer_adapter

/-- The mutable state a `price` call could in principle touch: the
class-level registry and the instance's injected backend fields. -/
structure AdapterState where
  registry : Registry
  adapter : PricerAdapter

/-- `_resolve_handler` as a state transformer, mirroring the fact that
every statement of the Python method only reads the registry. -/
def resolveS (σ : AdapterState) (mro : List String) :
    Option Handler × AdapterState :=
  (_resolve_handler σ.registry mro, σ)

/-- `price` as a state transformer over `AdapterState`, threading the
state through `_resolve_handler` and the handler call statement by
statement as the Python method does. -/
def priceS (σ : AdapterState) (trade : Trade) (market_state : MarketState) :
    Except Err PyNum × AdapterState :=
  let resolved := resolveS σ trade.mro
  match resolved.1 with
  | none =>
      (.error (.UnsupportedTradeKind ("Unsupported trade type: " ++ trade.kindName)),
       resolved.2)
  | some handler =>
      ((handler resolved.2.adapter trade market_state).map pyFloat, resolved.2)

end pricer_adapter

/-- An empty market snapshot, `MarketState()`. -/
def emptyMarket : MarketState :=
  { curves := [], market_data := [], vol_surfaces := [] }

namespace pricer_adapter

/-- A concrete handler returning the float 7.0. -/
def handlerSeven : Handler := fun _ _ _ => .ok (.float 7)

/-- A concrete handler returning the float 8.0. -/
def handlerEight : Handler := fun _ _ _ => .ok (.float 8)

/-- A trade of a kind token "K" with `object` as sole ancestor. -/
def tradeK : Trade := { mro := ["K", "object"], payload := .opaquePayload }

/-- A registry mapping only kind "K" to `handlerSeven`. -/
def regK : Registry := [("K", handlerSeven)]

/-- The demo's unsupported trade class `ExoticTrade`. -/
def exoticTrade : Trade :=
  { mro := ["ExoticTrade", "object"], payload := .opaquePayload }

/-- An instance of an unregistered subtype whose base kind is registered. -/
def subTrade : Trade :=
  { mro := ["SubTrade", "BaseTrade", "object"], payload := .opaquePayload }

/-- A registry mapping only the base kind "BaseTrade". -/
def regBase : Registry := [("BaseTrade", handlerSeven)]

/-- The demo's IRS trade: notional 1,000,000, fixed rate 0.032,
2026-01-01 to 2031-01-01, curve "usd_ois". -/
def irsDemoTrade : Trade :=
  { mro := ["IRSTrade", "object"],
    payload := .irs 1000000 (32/1000) ⟨2026, 1, 1⟩ ⟨2031, 1, 1⟩ "usd_ois" }

/-- The demo's market snapshot. -/
def demoMarket : MarketState :=
  { curves := [("usd_ois", [("par_rate", 3/100)]),
               ("usd_3m", [("forward", 31/1000)])],
    market_data := [("implied_vol", 22/100)],
    vol_surfaces := [("usd_3m_caps", [("atm_vol", 19/100)])] }

/-- An IRS trade referencing a curve id absent from `demoMarket`. -/
def irsMissingCurveTrade : Trade :=
  { mro := ["IRSTrade", "object"],
    payload := .irs 500 (1/100) ⟨2026, 1, 1⟩ ⟨2027, 1, 1⟩ "gbp_sonia" }

/-- A cap/floor trade referencing a curve id absent from `demoMarket`. -/
def capfloorMissingCurveTrade : Trade :=
  { mro := ["CapFloorTrade", "object"],
    payload := .capfloor [("strike", 3/100)] "eur_estr" "usd_3m_caps" [] }

/-- A cap/floor trade with a valid curve id but a vol-surface id absent
from `demoMarket`. -/
def capfloorMissingSurfaceTrade : Trade :=
  { mro := ["CapFloorTrade", "object"],
    payload := .capfloor [("strike", 3/100)] "usd_3m" "jpy_caps" [] }

/-- A concrete injected swap backend returning the int 5 (so that the
float coercion in `price` is visible). -/
def swapBackendIntFive : ℚ → ℚ → Date → Date → Dict ℚ → PyNum :=
  fun _ _ _ _ _ => .int 5

end pricer_adapter

theorem dictGet?_dictSet_self {α : Type} (d : Dict α) (k : String) (v : α) :
    dictGet? (dictSet d k v) k = some v := by
  induction d with
  | nil => simp [dictSet, dictGet?]
  | cons p rest ih =>
    obtain ⟨k', v'⟩ := p
    by_cases h : k = k'
    · simp [dictSet, dictGet?, h]
    · simp [dictSet, dictGet?, h, ih]

theorem dictGet?_dictSet_ne {α : Type} (d : Dict α) (k k' : String) (v : α)
    (h : k' ≠ k) :
    dictGet? (dictSet d k v) k' = dictGet? d k' := by
  induction d with
  | nil => simp [dictSet, dictGet?, h]
  | cons p rest ih =>
    obtain ⟨k'', v''⟩ := p
    by_cases h2 : k = k''
    · subst h2
      simp [dictSet, dictGet?, h]
    · simp [dictSet, dictGet?, h2, ih]

namespace pricer_adapter

theorem resolve_handler_none (reg : Registry) (mro : List String)
    (h : ∀ k ∈ mro, dictGet? reg k = none) :
    _resolve_handler reg mro = none := by
  induction mro with
  | nil => rfl
  | cons b rest ih =>
    have hb := h b (List.mem_cons_self b rest)
    have hrest := ih (fun k hk => h k (List.mem_cons_of_mem b hk))
    simp [_resolve_handler, hb, hrest]

theorem resolve_handler_first (reg : Registry) (pre rest : List String)
    (K : String) (H : Handler)
    (hpre : ∀ k ∈ pre, dictGet? reg k = none)
    (hK : dictGet? reg K = some H) :
    _resolve_handler reg (pre ++ K :: rest) = some H := by
  induction pre with
  | nil => simp [_resolve_handler, hK]
  | cons b bs ih =>
    have hb := hpre b (List.mem_cons_self b bs)
    have htail := ih (fun k hk => hpre k (List.mem_cons_of_mem b hk))
    simpa [_resolve_handler, hb] using htail

end pricer_adapter

namespace pricer_adapter

/-- C1: for a kind K registered with handler H and a trade whose concrete
kind is K, `price` invokes H with exactly (adapter, trade, market state)
and returns H's result coerced via `float`; when H already returns a
float, `price` equals H's result exactly (identity of dispatch). -/
theorem price_dispatch_identity (reg : Registry) (K : String) (H : Handler)
    (adapter : PricerAdapter) (trade : Trade) (ms : MarketState)
    (rest : List String)
    (hmro : trade.mro = K :: rest) (hreg : dictGet? reg K = some H) :
    price reg adapter trade ms = (H adapter trade ms).map pyFloat ∧
    (∀ q : ℚ, H adapter trade ms = .ok (.float q) →
       price reg adapter trade ms = H adapter trade ms) := by
  have hres : _resolve_handler reg trade.mro = some H := by
    rw [hmro]
    simp [_resolve_handler, hreg]
  refine ⟨by simp [price, hres], ?_⟩
  intro q hq
  simp [price, hres, hq, Except.map, pyFloat]

/-- C1 witness at a concrete registry, handler and trade. -/
theorem price_dispatch_identity_witness :
    price regK defaultAdapter tradeK emptyMarket =
      (handlerSeven defaultAdapter tradeK emptyMarket).map pyFloat ∧
    price regK defaultAdapter tradeK emptyMarket =
      handlerSeven defaultAdapter tradeK emptyMarket := by
  have h := price_dispatch_identity regK "K" handlerSeven defaultAdapter
    tradeK emptyMarket ["object"] rfl rfl
  exact ⟨h.1, h.2 7 rfl⟩

/-- C2: when neither the concrete kind nor any ancestor kind in the MRO
is registered, `price` fails with `UnsupportedTradeError` and the message
contains the concrete kind's name. -/
theorem price_unsupported_kind (reg : Registry) (adapter : PricerAdapter)
    (trade : Trade) (ms : MarketState)
    (h : ∀ k ∈ trade.mro, dictGet? reg k = none) :
    price reg adapter trade ms =
      .error (.UnsupportedTradeKind
        ("Unsupported trade type: " ++ trade.kindName)) ∧
    ∃ before after, "Unsupported trade type: " ++ trade.kindName =
      before ++ trade.kindName ++ after := by
  have hres := resolve_handler_none reg trade.mro h
  refine ⟨by simp [price, hres], "Unsupported trade type: ", "", by simp⟩

/-- C2 witness: the demo's `ExoticTrade` against the built-in registry. -/
theorem price_unsupported_kind_witness :
    price default_registry defaultAdapter exoticTrade emptyMarket =
      .error (.UnsupportedTradeKind "Unsupported trade type: ExoticTrade") := by
  have h := price_unsupported_kind default_registry defaultAdapter
    exoticTrade emptyMarket (by
      intro k hk
      have hk2 : k = "ExoticTrade" ∨ k = "object" := by
        simpa [exoticTrade] using hk
      rcases hk2 with rfl | rfl
      · rfl
      · rfl)
  exact h.1

/-- C3: resolution walks the MRO most specific to least specific and
returns the first registered handler: with every kind before K
unregistered and K registered with H, resolution returns H; a trade with
that MRO is priced by H (ancestry fallback), and a handler registered for
the concrete kind wins regardless of the rest of the chain. -/
theorem resolve_mro_order (reg : Registry) (pre rest : List String)
    (K : String) (H : Handler)
    (hpre : ∀ k ∈ pre, dictGet? reg k = none)
    (hK : dictGet? reg K = some H) :
    _resolve_handler reg (pre ++ K :: rest) = some H ∧
    (∀ adapter trade ms, trade.mro = pre ++ K :: rest →
       price reg adapter trade ms = (H adapter trade ms).map pyFloat) ∧
    (∀ adapter trade ms rest2, trade.mro = K :: rest2 →
       price reg adapter trade ms = (H adapter trade ms).map pyFloat) := by
  have hfirst := resolve_handler_first reg pre rest K H hpre hK
  refine ⟨hfirst, ?_, ?_⟩
  · intro adapter trade ms hmro
    rw [price, hmro, hfirst]
  · intro adapter trade ms rest2 hmro
    have hres : _resolve_handler reg (K :: rest2) = some H := by
      simp [_resolve_handler, hK]
    rw [price, hmro, hres]

/-- C3 witness: a subtype with no direct registration is priced by the
handler registered for its base kind. -/
theorem resolve_mro_order_witness :
    _resolve_handler regBase subTrade.mro = some handlerSeven ∧
    price regBase defaultAdapter subTrade emptyMarket = .ok (.float 7) := by
  have h := resolve_mro_order regBase ["SubTrade"] ["object"] "BaseTrade"
    handlerSeven (by
      intro k hk
      have hk2 : k = "SubTrade" := by simpa using hk
      subst hk2
      rfl) rfl
  refine ⟨h.1, ?_⟩
  rw [h.2.1 defaultAdapter subTrade emptyMarket rfl]
  rfl

/-- C4: after registering K with H1 and then with H2, the registry maps K
to H2 only, other keys are untouched, every subsequent `price` call on a
trade of kind K uses H2, and each `register` call returned its handler
unchanged. -/
theorem register_last_wins (reg : Registry) (K : String) (H1 H2 : Handler) :
    dictGet? (register (register reg K H1).1 K H2).1 K = some H2 ∧
    (register reg K H1).2 = H1 ∧
    (register (register reg K H1).1 K H2).2 = H2 ∧
    (∀ adapter trade ms rest, trade.mro = K :: rest →
       price (register (register reg K H1).1 K H2).1 adapter trade ms =
         (H2 adapter trade ms).map pyFloat) ∧
    (∀ k, k ≠ K →
       dictGet? (register (register reg K H1).1 K H2).1 k = dictGet? reg k) := by
  have hself : dictGet? (register (register reg K H1).1 K H2).1 K = some H2 :=
    dictGet?_dictSet_self _ K H2
  refine ⟨hself, rfl, rfl, ?_, ?_⟩
  · intro adapter trade ms rest hmro
    have hres : _resolve_handler (register (register reg K H1).1 K H2).1
        trade.mro = some H2 := by
      rw [hmro]
      simp [_resolve_handler, hself]
    rw [price, hres]
  · intro k hk
    rw [register, register]
    rw [dictGet?_dictSet_ne _ K k H2 hk, dictGet?_dictSet_ne _ K k H1 hk]

/-- C4 witness: re-registering kind "K" makes `price` use the second
handler (result 8.0, not 7.0). -/
theorem register_last_wins_witness :
    dictGet? (register (register [] "K" handlerSeven).1 "K" handlerEight).1
      "K" = some handlerEight ∧
    price (register (register [] "K" handlerSeven).1 "K" handlerEight).1
      defaultAdapter tradeK emptyMarket = .ok (.float 8) := by
  have h := register_last_wins [] "K" handlerSeven handlerEight
  refine ⟨h.1, ?_⟩
  rw [h.2.2.2.1 defaultAdapter tradeK emptyMarket ["object"] rfl]
  rfl

end pricer_adapter

namespace pricer_adapter

/-- C5: with an injected swap backend B, pricing a rate-swap trade whose
curve id is present in the market's curves dispatches to the built-in IRS
handler, which calls B with exactly
(notional, fixed rate, start, end, curves[curve id]), and `price` returns
B's result coerced to float; moreover any backend agreeing with B on that
one argument tuple yields the same `price` result. -/
theorem injected_swap_backend
    (B : ℚ → ℚ → Date → Date → Dict ℚ → PyNum)
    (swaptionB : Dict ℚ → Dict ℚ → PyNum) (capB : Option CapFloorPricer)
    (notional fixed_rate : ℚ) (start end_ : Date) (curve_id : String)
    (rest : List String) (ms : MarketState) (curve : Dict ℚ) (trade : Trade)
    (hmro : trade.mro = "IRSTrade" :: rest)
    (hpayload : trade.payload = .irs notional fixed_rate start end_ curve_id)
    (hcurve : dictGet? ms.curves curve_id = some curve) :
    price default_registry (PricerAdapter.init B swaptionB capB) trade ms =
      .ok (pyFloat (B notional fixed_rate start end_ curve)) ∧
    (∀ B2 : ℚ → ℚ → Date → Date → Dict ℚ → PyNum,
       B2 notional fixed_rate start end_ curve =
         B notional fixed_rate start end_ curve →
       price default_registry (PricerAdapter.init B2 swaptionB capB) trade ms =
         price default_registry (PricerAdapter.init B swaptionB capB) trade ms) := by
  have key : ∀ B3 : ℚ → ℚ → Date → Date → Dict ℚ → PyNum,
      price default_registry (PricerAdapter.init B3 swaptionB capB) trade ms =
        .ok (pyFloat (B3 notional fixed_rate start end_ curve)) := by
    intro B3
    have hres : _resolve_handler default_registry trade.mro =
        some _price_irs := by
      rw [hmro]
      rfl
    rw [price, hres]
    show Except.map pyFloat
      (_price_irs (PricerAdapter.init B3 swaptionB capB) trade ms) = _
    rw [_price_irs]
    simp only [hpayload, hcurve]
    rfl
  refine ⟨key B, ?_⟩
  intro B2 hagree
  rw [key B2, key B, hagree]

/-- C5 witness: an injected backend returning the int 5 is called and its
result is coerced to the float 5.0. -/
theorem injected_swap_backend_witness :
    price default_registry
        (PricerAdapter.init swapBackendIntFive swaption_pv none)
        irsDemoTrade demoMarket = .ok (.float 5) := by
  have h := injected_swap_backend swapBackendIntFive swaption_pv none
    1000000 (32/1000) ⟨2026, 1, 1⟩ ⟨2031, 1, 1⟩ "usd_ois" ["object"]
    demoMarket [("par_rate", 3/100)] irsDemoTrade rfl rfl rfl
  exact h.1

/-- C6: with the default backend, the demo swap trade prices to
1,000,000 * (0.032 - 0.03) * (1826/365): the day count from 2026-01-01 to
2031-01-01 is 1826 (2028 is a leap year), and the value is within 0.01 of
10,005.48. -/
theorem default_swap_end_to_end :
    daysBetween ⟨2026, 1, 1⟩ ⟨2031, 1, 1⟩ = 1826 ∧
    isLeap 2028 = true ∧
    price default_registry defaultAdapter irsDemoTrade demoMarket =
      .ok (.float (1000000 * (32/1000 - 3/100) * (1826/365))) ∧
    |1000000 * ((32 : ℚ)/1000 - 3/100) * (1826/365) - 10005.48| < 1/100 := by
  refine ⟨by decide, rfl, ?_, by rw [abs_sub_lt_iff]; norm_num⟩
  have hres : _resolve_handler default_registry irsDemoTrade.mro =
      some _price_irs := rfl
  rw [price, hres]
  show Except.map pyFloat (_price_irs defaultAdapter irsDemoTrade demoMarket) = _
  have hdays : daysBetween ⟨2026, 1, 1⟩ ⟨2031, 1, 1⟩ = 1826 := by decide
  show Except.ok (pyFloat (price_swap 1000000 (32/1000) ⟨2026, 1, 1⟩
    ⟨2031, 1, 1⟩ [("par_rate", 3/100)])) = _
  rw [price_swap]
  simp only [hdays]
  norm_num [dictGetD, dictGet?, pyFloat]

end pricer_adapter

namespace pricer_adapter

/-- C7: a rate-swap trade whose curve id is absent from the market's
curves, and a cap/floor trade whose curve id or vol-surface id is absent,
make the built-in handler raise `KeyError` with the missing key, and
`price` propagates that error unchanged to its caller. -/
theorem handler_missing_key (adapter : PricerAdapter) (ms : MarketState)
    (trade : Trade) (rest : List String) :
    (∀ notional fixed_rate start end_ curve_id,
       trade.mro = "IRSTrade" :: rest →
       trade.payload = .irs notional fixed_rate start end_ curve_id →
       dictGet? ms.curves curve_id = none →
       price default_registry adapter trade ms =
         .error (.KeyNotFound curve_id)) ∧
    (∀ cap curve_id vol_surface_id kwargs,
       trade.mro = "CapFloorTrade" :: rest →
       trade.payload = .capfloor cap curve_id vol_surface_id kwargs →
       dictGet? ms.curves curve_id = none →
       price default_registry adapter trade ms =
         .error (.KeyNotFound curve_id)) ∧
    (∀ cap curve curve_id vol_surface_id kwargs,
       trade.mro = "CapFloorTrade" :: rest →
       trade.payload = .capfloor cap curve_id vol_surface_id kwargs →
       dictGet? ms.curves curve_id = some curve →
       dictGet? ms.vol_surfaces vol_surface_id = none →
       price default_registry adapter trade ms =
         .error (.KeyNotFound vol_surface_id)) := by
  refine ⟨?_, ?_, ?_⟩
  · intro notional fixed_rate start end_ curve_id hmro hpayload hcurve
    have hres : _resolve_handler default_registry trade.mro =
        some _price_irs := by rw [hmro]; rfl
    rw [price, hres]
    show Except.map pyFloat (_price_irs adapter trade ms) = _
    rw [_price_irs]
    simp only [hpayload, hcurve]
    rfl
  · intro cap curve_id vol_surface_id kwargs hmro hpayload hcurve
    have hres : _resolve_handler default_registry trade.mro =
        some _price_capfloor := by rw [hmro]; rfl
    rw [price, hres]
    show Except.map pyFloat (_price_capfloor adapter trade ms) = _
    rw [_price_capfloor]
    simp only [hpayload, hcurve]
    rfl
  · intro cap curve curve_id vol_surface_id kwargs hmro hpayload hcurve hsurf
    have hres : _resolve_handler default_registry trade.mro =
        some _price_capfloor := by rw [hmro]; rfl
    rw [price, hres]
    show Except.map pyFloat (_price_capfloor adapter trade ms) = _
    rw [_price_capfloor]
    simp only [hpayload, hcurve, hsurf]
    rfl

/-- C7 witness: the three missing-key scenarios at concrete trades
against the demo market. -/
theorem handler_missing_key_witness :
    price default_registry defaultAdapter irsMissingCurveTrade demoMarket =
      .error (.KeyNotFound "gbp_sonia") ∧
    price default_registry defaultAdapter capfloorMissingCurveTrade demoMarket =
      .error (.KeyNotFound "eur_estr") ∧
    price default_registry defaultAdapter capfloorMissingSurfaceTrade demoMarket =
      .error (.KeyNotFound "jpy_caps") := by
  refine ⟨?_, ?_, ?_⟩
  · exact (handler_missing_key defaultAdapter demoMarket irsMissingCurveTrade
      ["object"]).1 500 (1/100) ⟨2026, 1, 1⟩ ⟨2027, 1, 1⟩ "gbp_sonia"
      rfl rfl rfl
  · exact (handler_missing_key defaultAdapter demoMarket
      capfloorMissingCurveTrade ["object"]).2.1 [("strike", 3/100)]
      "eur_estr" "usd_3m_caps" [] rfl rfl rfl
  · exact (handler_missing_key defaultAdapter demoMarket
      capfloorMissingSurfaceTrade ["object"]).2.2 [("strike", 3/100)]
      [("forward", 31/1000)] "usd_3m" "jpy_caps" [] rfl rfl rfl rfl

/-- C8: pricing and handler resolution never mutate the registry or the
adapter's injected-backend fields — the state after any `price` call
(including failing ones, which are covered by the universal
quantification) is the state before it, a later call on the resulting
state behaves exactly as on the original state, and the stateful run
returns the same result as the pure `price` function. -/
theorem price_no_mutation (σ : AdapterState) (t t2 : Trade)
    (ms ms2 : MarketState) :
    (∀ mro, (resolveS σ mro).2 = σ) ∧
    (priceS σ t ms).2 = σ ∧
    priceS ((priceS σ t ms).2) t2 ms2 = priceS σ t2 ms2 ∧
    (priceS σ t ms).1 = price σ.registry σ.adapter t ms := by
  have hstate : (priceS σ t ms).2 = σ := by
    rw [priceS, resolveS]
    cases _resolve_handler σ.registry t.mro <;> rfl
  refine ⟨fun _ => rfl, hstate, by rw [hstate], ?_⟩
  rw [priceS, resolveS, price]
  cases _resolve_handler σ.registry t.mro <;> rfl

end pricer_adapter

/-- C9: the dispatch cores of the two adapter modules are behaviourally
equal — `register`, `_resolve_handler` and `price` of `price_adapter.py`
agree with those of `pricer_adapter.py` on every registry, trade and
market state — and the modules differ only in their default backends,
`price_adapter.py`'s being constant stubs 100.0, 200.0 and 300.0. -/
theorem dispatch_cores_equal :
    price_adapter.register = pricer_adapter.register ∧
    (∀ reg mro, price_adapter._resolve_handler reg mro =
       pricer_adapter._resolve_handler reg mro) ∧
    (∀ reg adapter trade ms, price_adapter.price reg adapter trade ms =
       pricer_adapter.price reg adapter trade ms) ∧
    (∀ notional fixed_rate start end_ curve,
       price_adapter.price_swap notional fixed_rate start end_ curve =
         .float 100) ∧
    (∀ trade_dict market_data,
       price_adapter.swaption_pv trade_dict market_data = .float 200) ∧
    (∀ cap curve vol_surface kwargs,
       price_adapter.defaultCapFloorPricer.price cap curve vol_surface
         kwargs = .float 300) := by
  have hresolve : ∀ reg mro, price_adapter._resolve_handler reg mro =
      pricer_adapter._resolve_handler reg mro := by
    intro reg mro
    induction mro with
    | nil => rfl
    | cons b rest ih =>
      rw [price_adapter._resolve_handler, pricer_adapter._resolve_handler]
      cases dictGet? reg b <;> simp [ih]
  refine ⟨rfl, hresolve, ?_, fun _ _ _ _ _ => rfl, fun _ _ => rfl,
    fun _ _ _ _ => rfl⟩
  intro reg adapter trade ms
  rw [price_adapter.price, pricer_adapter.price, hresolve]

namespace pricer_adapter

/-- C10: `UnsupportedTradeError` is declared as a subclass of `TypeError`,
so the exception `price` raises for a trade with no registered handler
anywhere in its MRO is both an `UnsupportedTradeError` and caught by an
`except TypeError` clause. -/
theorem unsupported_is_type_error (reg : Registry) (adapter : PricerAdapter)
    (trade : Trade) (ms : MarketState)
    (h : ∀ k ∈ trade.mro, dictGet? reg k = none) :
    price reg adapter trade ms =
      .error (.UnsupportedTradeKind
        ("Unsupported trade type: " ++ trade.kindName)) ∧
    (Err.UnsupportedTradeKind
      ("Unsupported trade type: " ++ trade.kindName)).excClass =
      .unsupportedTradeError ∧
    isSubclass .unsupportedTradeError .typeError = true ∧
    catches .typeError (.UnsupportedTradeKind
      ("Unsupported trade type: " ++ trade.kindName)) = true ∧
    catches .unsupportedTradeError (.UnsupportedTradeKind
      ("Unsupported trade type: " ++ trade.kindName)) = true := by
  have hres := resolve_handler_none reg trade.mro h
  exact ⟨by simp [price, hres], rfl, rfl, rfl, rfl⟩

/-- C10 witness: the error raised for the demo's `ExoticTrade` is caught
by `except TypeError`. -/
theorem unsupported_is_type_error_witness :
    price regK defaultAdapter exoticTrade emptyMarket =
      .error (.UnsupportedTradeKind "Unsupported trade type: ExoticTrade") ∧
    catches .typeError
      (.UnsupportedTradeKind "Unsupported trade type: ExoticTrade") = true := by
  have h := unsupported_is_type_error regK defaultAdapter exoticTrade
    emptyMarket (by
      intro k hk
      have hk2 : k = "ExoticTrade" ∨ k = "object" := by
        simpa [exoticTrade] using hk
      rcases hk2 with rfl | rfl
      · rfl
      · rfl)
  exact ⟨h.1, h.2.2.2.1⟩

end pricer_adapter
